import Mathlib

/-!
Verification of the flamego/template repository: a shallow embedding of its
layered-directory template compilation pipeline (fs.go: getExt, newFileSystem;
template.go: newTemplate, Templater, template.HTML) together with theorems
settling the specification claims.

Modelling conventions:
* Paths are slash-separated strings (the host is Linux, so filepath.ToSlash is
  the identity and filepath.Join of clean paths is concatenation with "/").
* The on-disk state is an explicit list of (path, node) entries; os.Stat,
  os.ReadFile and filepath.WalkDir are functions over it.  WalkDir order is the
  entry-list order (walk order is deterministic but not significant).
* filepath.EvalSymlinks is the identity: the disk model contains no symlinks.
* The html/template engine is opaque (per the spec, a non-goal): parsing is an
  abstract function String -> Except String String and execution of the
  compiled set is an abstract function String -> Data -> Except String String
  supplied to the renderer; concrete instances are used in witnesses.
* String operations are carried out on the character list of the string; all
  paths involved are ASCII, where Go byte indices and character indices agree.
-/

namespace Flamego

/-- Character-list length of a string (Go len on ASCII strings). -/
def strLen (s : String) : Nat := s.toList.length

/-- Character-list take (Go slicing s[:n] on ASCII strings). -/
def strTake (s : String) (n : Nat) : String := ⟨s.toList.take n⟩

/-- Character-list drop (Go slicing s[n:] on ASCII strings). -/
def strDrop (s : String) (n : Nat) : String := ⟨s.toList.drop n⟩

/-- Whether p is a prefix of s, on character lists (Go strings.HasPrefix). -/
def strPrefix (p s : String) : Bool := p.toList.isPrefixOf s.toList

/-- getExt from fs.go: the substring of name from the first dot to the end,
or "" when name contains no dot (strings.Index plus slicing). -/
def getExt (name : String) : String :=
  match name.toList.findIdx? (fun c => c == '.') with
  | none => ""
  | some i => ⟨name.toList.drop i⟩

/-- A node on disk: a directory or a regular file with its content. -/
inductive FsNode where
  | dir : FsNode
  | file (content : String) : FsNode
deriving DecidableEq

/-- The modelled disk: a list of (path, node) entries. -/
structure Disk where
  entries : List (String × FsNode)
deriving DecidableEq

/-- os.Stat on the modelled disk: the node at the given path, if any. -/
def Disk.lookup (d : Disk) (p : String) : Option FsNode :=
  (d.entries.find? (fun e => e.1 == p)).map (fun e => e.2)

/-- isDir from fs.go: true when the path exists and is a directory. -/
def isDir (d : Disk) (p : String) : Bool :=
  match d.lookup p with
  | some FsNode.dir => true
  | _ => false

/-- isFile from fs.go: true when the path exists and is not a directory. -/
def isFile (d : Disk) (p : String) : Bool :=
  match d.lookup p with
  | some (FsNode.file _) => true
  | _ => false

/-- os.ReadFile on the modelled disk. -/
def readFile (d : Disk) (p : String) : Except String String :=
  match d.lookup p with
  | some (FsNode.file c) => Except.ok c
  | some FsNode.dir => Except.error ("read " ++ p ++ ": is a directory")
  | none => Except.error ("open " ++ p ++ ": no such file or directory")

/-- Content of the file at a path, or "" when it is not a file (total helper
used to state characterizations; readFile succeeds exactly on files). -/
def diskContent (d : Disk) (p : String) : String :=
  match d.lookup p with
  | some (FsNode.file c) => c
  | _ => ""

/-- Whether path p lies in the tree rooted at dir (is dir itself or below). -/
def underDir (dir p : String) : Bool :=
  (p == dir) || strPrefix (dir ++ "/") p

/-- The paths visited by filepath.WalkDir(dir): entries of the disk inside the
tree rooted at dir, in entry-list order. -/
def walkPaths (d : Disk) (dir : String) : List String :=
  (d.entries.filter (fun e => underDir dir e.1)).map (fun e => e.1)

/-- filepath.Rel(dir, p) for paths produced by walking dir. -/
def relPath (dir p : String) : Except String String :=
  if p == dir then Except.ok "."
  else if strPrefix (dir ++ "/") p then Except.ok (strDrop p (strLen dir + 1))
  else Except.error ("Rel: cannot make " ++ p ++ " relative to " ++ dir)

/-- A template file as produced by newFileSystem: extension-stripped name,
content, and extension with the leading dot (the file struct of fs.go;
its Data() accessor always succeeds for disk- and embed-backed files). -/
structure TFile where
  name : String
  data : String
  ext : String
deriving DecidableEq

/-- The walk callback of newFileSystem (fs.go), applied to each visited path
in order: a path whose getExt (computed on the full walked path) is in the
allowed list is read, its path made relative to dir, and an entry with the
extension stripped is appended; other paths are skipped. -/
def walkFiles (d : Disk) (dir : String) (allowedExtensions : List String) :
    List String → Except String (List TFile)
  | [] => Except.ok []
  | p :: ps =>
    if allowedExtensions.contains (getExt p) then
      match readFile d p with
      | Except.error e => Except.error ("read: " ++ e)
      | Except.ok data =>
        match relPath dir p with
        | Except.error e => Except.error ("get relative path: " ++ e)
        | Except.ok rel =>
          match walkFiles d dir allowedExtensions ps with
          | Except.error e => Except.error e
          | Except.ok rest =>
            Except.ok
              (⟨strTake rel (strLen rel - strLen (getExt p)), data, getExt p⟩
                :: rest)
    else walkFiles d dir allowedExtensions ps

/-- newFileSystem from fs.go: walk dir (an error when dir does not exist, as
WalkDir reports it to the callback which propagates it) and collect the
template files. -/
def newFileSystem (d : Disk) (dir : String) (allowedExtensions : List String) :
    Except String (List TFile) :=
  match d.lookup dir with
  | none =>
      Except.error ("walk " ++ dir ++ ": open " ++ dir ++
        ": no such file or directory")
  | some _ => walkFiles d dir allowedExtensions (walkPaths d dir)

/-- A compiled template set (gotemplate): the (name, parsed body) pairs in
registration order.  Registering a name again replaces the earlier
definition, so the effective entries are the distinct names. -/
def TemplateSet : Type := List (String × String)

instance : DecidableEq TemplateSet := by
  unfold TemplateSet
  infer_instance

/-- The distinct entry names of a compiled template set. -/
def TemplateSet.names (ts : TemplateSet) : List String :=
  (ts.map Prod.fst).dedup

/-- The overlay scan of newTemplate (template.go lines 152-164): walk the
already-reversed append-directory list, skip directories where
dir/(name+ext) is not a file, read and stop at the first hit. -/
def scanDirs (d : Disk) (rel : String) : List String → Except String (Option String)
  | [] => Except.ok none
  | dir :: rest =>
    let fpath := dir ++ "/" ++ rel
    if isFile d fpath then
      match readFile d fpath with
      | Except.error e => Except.error ("read: " ++ e)
      | Except.ok c => Except.ok (some c)
    else scanDirs d rel rest

/-- The per-file compilation loop of newTemplate (template.go lines 143-177):
for each file, scan the (reversed) append directories for an overlay; when
the resulting data is empty fall back to the file content captured from the
primary source (the len(data) == 0 check), then parse it, wrapping a parse
failure with the file name.  Function maps and delimiters only configure the
opaque engine and are absorbed into the parse function P. -/
def compileFiles (P : String → Except String String) (d : Disk)
    (dirs : List String) : List TFile → Except String TemplateSet
  | [] => Except.ok []
  | f :: rest =>
    match scanDirs d (f.name ++ f.ext) dirs with
    | Except.error e => Except.error e
    | Except.ok found =>
      match P (match found with
               | some c => if c == "" then f.data else c
               | none => f.data) with
      | Except.error e => Except.error ("parse " ++ f.name ++ ": " ++ e)
      | Except.ok body =>
        match compileFiles P d dirs rest with
        | Except.error e => Except.error e
        | Except.ok ts => Except.ok ((f.name, body) :: ts)

/-- newTemplate from template.go: build the file system from the primary
directory unless one was supplied, reverse the append directories (later
ones win, so the reversed scan can stop at the first hit; the
isDir/EvalSymlinks pass over existing directories is the identity in this
model), then compile every file.  P is the opaque engine parse step. -/
def newTemplate (P : String → Except String String) (d : Disk)
    (allowedExtensions : List String) (fsOpt : Option (List TFile))
    (dir : String) (others : List String) : Except String TemplateSet :=
  match fsOpt with
  | some fs => compileFiles P d others.reverse fs
  | none =>
    match newFileSystem d dir allowedExtensions with
    | Except.error e => Except.error ("new file system: " ++ e)
    | Except.ok fs => compileFiles P d others.reverse fs

/-- The Options struct of template.go restricted to the fields that reach the
compilation pipeline and the renderer (FuncMaps and Delims only configure
the opaque engine). -/
structure Options where
  fileSystem : Option (List TFile)
  directory : String
  appendDirectories : List String
  extensions : List String
  contentType : String
deriving DecidableEq

/-- parseOptions from Templater (template.go lines 194-207): default the
directory to "templates", the extensions to [".tmpl", ".html"], and the
content type to "text/html". -/
def parseOptions (o : Options) : Options :=
  ⟨o.fileSystem,
   if o.directory == "" then "templates" else o.directory,
   o.appendDirectories,
   if o.extensions.isEmpty then [".tmpl", ".html"] else o.extensions,
   if o.contentType == "" then "text/html" else o.contentType⟩

/-- Outcome of running the Templater factory: a panic aborting setup, or a
returned handler carrying the parsed options and the set compiled at setup. -/
inductive SetupResult where
  | panicked (msg : String) : SetupResult
  | handler (opt : Options) (tpl : TemplateSet) : SetupResult
deriving DecidableEq

/-- The Templater factory (template.go lines 188-218): parse option defaults,
compile once, panic on failure, otherwise return the handler state. -/
def Templater (P : String → Except String String) (d : Disk) (o : Options) :
    SetupResult :=
  let opt := parseOptions o
  match newTemplate P d opt.extensions opt.fileSystem opt.directory
      opt.appendDirectories with
  | Except.error e => SetupResult.panicked ("template: new template: " ++ e)
  | Except.ok tpl => SetupResult.handler opt tpl

/-- The environment reported by flamego.Env(). -/
inductive EnvType where
  | dev : EnvType
  | prod : EnvType
  | test : EnvType
deriving DecidableEq, BEq

/-- The recompilation guard of the per-request handler (template.go lines
230-231): development environment and a directory or append directories
configured. -/
def recompileGuard (env : EnvType) (opt : Options) : Bool :=
  (env == EnvType.dev) &&
    (!(opt.directory == "") || !opt.appendDirectories.isEmpty)

/-- What one request observes from the handler closure: an error response
written directly (recompilation failed; the template and data are not mapped
into the context) or the template set mapped for rendering. -/
inductive RequestOutcome where
  | errorResponse (status : Nat) (body : String) : RequestOutcome
  | proceed (tpl : TemplateSet) : RequestOutcome
deriving DecidableEq

/-- One execution of the handler closure (template.go lines 220-246) against
the disk d as it stands at request time.  The second component is the shared
setup-compiled set captured by the closure after the request: the closure
only shadows it with a request-local variable and never reassigns it. -/
def handleRequest (P : String → Except String String) (env : EnvType)
    (opt : Options) (sharedTpl : TemplateSet) (d : Disk) :
    RequestOutcome × TemplateSet :=
  if recompileGuard env opt then
    match newTemplate P d opt.extensions opt.fileSystem opt.directory
        opt.appendDirectories with
    | Except.error e =>
        (RequestOutcome.errorResponse 500 ("template: " ++ e ++ "\n"), sharedTpl)
    | Except.ok tpl => (RequestOutcome.proceed tpl, sharedTpl)
  else (RequestOutcome.proceed sharedTpl, sharedTpl)

/-- A value stored in the per-request Data map: a string (enough for the
claims about plumbing) or the render-duration closure the renderer installs
(opaque: in the source it is a function of the captured start time). -/
inductive Value where
  | str (s : String) : Value
  | durationThunk : Value
deriving DecidableEq

/-- The Data map of template.go (map[string]interface).  Modelled as an
association list without duplicate keys being observable: get returns the
first binding, set replaces in place or appends. -/
def Data : Type := List (String × Value)

instance : DecidableEq Data := by
  unfold Data
  infer_instance

/-- Go map assignment m[k] = v: replace the binding in place, else append. -/
def Data.set : Data → String → Value → Data
  | [], k, v => [(k, v)]
  | (k', v') :: rest, k, v =>
    if k' == k then (k, v) :: rest else (k', v') :: Data.set rest k v

/-- Go map read m[k]. -/
def Data.get : Data → String → Option Value
  | [], _ => none
  | (k', v') :: rest, k => if k' == k then some v' else Data.get rest k

/-- http.StatusText(http.StatusInternalServerError). -/
def statusText500 : String := "Internal Server Error"

/-- The response observed by the client: the Content-Type header if set, the
status code if written, and the body bytes in write order. -/
structure Response where
  contentType : Option String
  status : Option Nat
  body : String
deriving DecidableEq

/-- net/http http.Error: plain-text content type, the given status, and the
message followed by a newline as the whole body. -/
def httpError (msg : String) (code : Nat) : Response :=
  ⟨some "text/plain; charset=utf-8", some code, msg ++ "\n"⟩

/-- responseServerError from template.go: log the error, then http.Error with
the error text in development and the generic status text otherwise. -/
def responseServerError (env : EnvType) (err : String) :
    Response × List String :=
  (httpError (if env == EnvType.dev then err else statusText500) 500, [err])

/-- Everything one call to template.HTML produces or leaves behind: the
response, the buffer pool after the deferred reset-and-put, the Data map,
and the logged errors. -/
structure RenderResult where
  response : Response
  pool : List String
  data : Data
  logged : List String
deriving DecidableEq

/-- template.HTML from template.go: take a buffer from the pool (a fresh
empty one when the pool is empty, per the pool's New function), install the
render-duration closure under "RenderDuration" before execution, execute the
named template into the buffer via the opaque engine exec, and either answer
the execution error through responseServerError or write the content-type
header, the status, and the buffer to the response.  The deferred function
resets the buffer and returns it to the pool on every path. -/
def HTML (env : EnvType) (exec : String → Data → Except String String)
    (contentType : String) (bufPool : List String) (data0 : Data)
    (status : Nat) (name : String) : RenderResult :=
  match exec name (Data.set data0 "RenderDuration" Value.durationThunk) with
  | Except.error e =>
    ⟨(responseServerError env e).1, "" :: bufPool.drop 1,
     Data.set data0 "RenderDuration" Value.durationThunk,
     (responseServerError env e).2⟩
  | Except.ok out =>
    ⟨⟨some (contentType ++ "; charset=utf-8"), some status,
      bufPool.headD "" ++ out⟩,
     "" :: bufPool.drop 1,
     Data.set data0 "RenderDuration" Value.durationThunk, []⟩

/-! Specification-side helpers, written from the spec and claim wording; the
theorems below compare the source-translated pipeline against them. -/

/-- The walked paths of the primary tree whose getExt (computed by the code
on the full walked path) lies in the allowed list. -/
def matchedPaths (d : Disk) (dir : String) (allowedExtensions : List String) :
    List String :=
  (walkPaths d dir).filter (fun p => allowedExtensions.contains (getExt p))

/-- The relative path of a walked path with respect to the walk root. -/
def relOf (dir p : String) : String :=
  if p == dir then "." else strDrop p (strLen dir + 1)

/-- The template name the code derives for a walked path: the relative path
with the getExt of the full path stripped from its end. -/
def deriveName (dir p : String) : String :=
  strTake (relOf dir p) (strLen (relOf dir p) - strLen (getExt p))

/-- The last path component of a slash-separated path (the filename). -/
def lastComponent (p : String) : String :=
  ⟨(p.toList.reverse.takeWhile (fun c => !(c == '/'))).reverse⟩

/-- The content of the first directory in the given list that contains a
file at the given relative path, scanning in list order. -/
def firstExisting (d : Disk) (rel : String) : List String → Option String
  | [] => none
  | dir :: rest =>
    if isFile d (dir ++ "/" ++ rel) then some (diskContent d (dir ++ "/" ++ rel))
    else firstExisting d rel rest

/-- The content the compiler uses for a primary-enumerated file, as the
amended overlay claim describes it: the content of the last-listed overlay
directory holding a file at name+ext (scan overlays from last listed to
first listed), except that an empty scan result falls back to the content
captured from the primary source. -/
def resolveContent (d : Disk) (others : List String) (f : TFile) : String :=
  match firstExisting d (f.name ++ f.ext) others.reverse with
  | some c => if c == "" then f.data else c
  | none => f.data

/-- Error-propagating map over a list, used to state the compilation loop as
one formula. -/
def exceptMapList (g : α → Except String β) : List α → Except String (List β)
  | [] => Except.ok []
  | a :: as =>
    match g a with
    | Except.error e => Except.error e
    | Except.ok b =>
      match exceptMapList g as with
      | Except.error e => Except.error e
      | Except.ok bs => Except.ok (b :: bs)

/-- A parse step that accepts every source text (the engine on well-formed
template bodies). -/
def parseId : String → Except String String := fun s => Except.ok s

/-! Concrete fixtures used by witnesses and counterexamples. -/

/-- The template body of the rendering example, "Hello, \x7b\x7b.Name\x7d\x7d!". -/
def helloTemplateBody : String := "Hello, \x7b\x7b.Name\x7d\x7d!"

/-- The opaque engine executing helloTemplateBody against the data map:
substitutes the Name field. -/
def renderHello (d : Data) : Except String String :=
  match Data.get d "Name" with
  | some (Value.str s) => Except.ok ("Hello, " ++ s ++ "!")
  | _ => Except.error "map has no entry for key Name"

/-- The opaque engine for a compiled set holding the single template "home"
with body helloTemplateBody: executing any other name is an undefined-name
error. -/
def execHelloSet (name : String) (d : Data) : Except String String :=
  if name == "home" then renderHello d
  else Except.error ("html/template: " ++ name ++ " is undefined")

/-- A primary tree with one template file. -/
def diskBasic : Disk :=
  ⟨[("templates", FsNode.dir), ("templates/home.tmpl", FsNode.file "A")]⟩

/-- A primary tree with two files that strip to the same name. -/
def diskDup : Disk :=
  ⟨[("templates", FsNode.dir),
    ("templates/home.tmpl", FsNode.file "A"),
    ("templates/home.html", FsNode.file "B")]⟩

/-- A primary tree with a dotted subdirectory holding a .tmpl file. -/
def diskDotted : Disk :=
  ⟨[("templates", FsNode.dir),
    ("templates/v1.0", FsNode.dir),
    ("templates/v1.0/home.tmpl", FsNode.file "X")]⟩

/-- A primary file "A" and an overlay file at the same relative path that
exists but is empty. -/
def diskEmptyOverlay : Disk :=
  ⟨[("templates", FsNode.dir),
    ("templates/home.tmpl", FsNode.file "A"),
    ("appendd", FsNode.dir),
    ("appendd/home.tmpl", FsNode.file "")]⟩

/-- A disk holding only an overlay directory with content "B" at the
relative path home.tmpl. -/
def diskOverlayB : Disk :=
  ⟨[("appendd", FsNode.dir), ("appendd/home.tmpl", FsNode.file "B")]⟩

/-- The empty disk: no primary directory exists. -/
def diskNone : Disk := ⟨[]⟩

/-- A pre-built file system with one file, as a supplied-FileSystem option. -/
def fsSupplied : List TFile := [⟨"home", "A", ".tmpl"⟩]

/-! Helper lemmas about the disk model and the compilation loops. -/

theorem readFile_of_isFile {d : Disk} {p : String} (h : isFile d p = true) :
    readFile d p = Except.ok (diskContent d p) := by
  unfold isFile at h
  cases hl : d.lookup p with
  | none => simp [hl] at h
  | some n =>
    cases n with
    | dir => simp [hl] at h
    | file c => simp [readFile, diskContent, hl]

theorem diskContent_of_readFile {d : Disk} {p c : String}
    (h : readFile d p = Except.ok c) : diskContent d p = c := by
  unfold readFile at h
  cases hl : d.lookup p with
  | none => simp [hl] at h
  | some n =>
    cases n with
    | dir => simp [hl] at h
    | file c2 =>
      simp [hl] at h
      simp [diskContent, hl, h]

theorem relPath_of_underDir {dir p : String} (h : underDir dir p = true) :
    relPath dir p = Except.ok (relOf dir p) := by
  cases hp : (p == dir) with
  | true => simp [relPath, relOf, hp]
  | false =>
    have h2 : strPrefix (dir ++ "/") p = true := by
      unfold underDir at h
      rw [hp] at h
      simpa using h
    simp [relPath, relOf, hp, h2]

theorem walkPaths_underDir {d : Disk} {dir p : String}
    (h : p ∈ walkPaths d dir) : underDir dir p = true := by
  unfold walkPaths at h
  rcases List.mem_map.mp h with ⟨e, he, rfl⟩
  exact (List.mem_filter.mp he).2

theorem walkFiles_ok {d : Disk} {dir : String} {E : List String} :
    ∀ {ps : List String} {fs : List TFile},
    (∀ p ∈ ps, underDir dir p = true) →
    walkFiles d dir E ps = Except.ok fs →
    fs = (ps.filter (fun p => E.contains (getExt p))).map
      (fun p => ⟨deriveName dir p, diskContent d p, getExt p⟩) := by
  intro ps
  induction ps with
  | nil =>
    intro fs _ h
    unfold walkFiles at h
    simp at h
    simp [h]
  | cons p ps ih =>
    intro fs hud h
    unfold walkFiles at h
    cases hc : E.contains (getExt p) with
    | false =>
      have hmem : ¬(getExt p ∈ E) := by simpa using hc
      rw [hc] at h
      simp only [Bool.false_eq_true, if_false] at h
      rw [ih (fun q hq => hud q (List.mem_cons_of_mem p hq)) h]
      simp [List.filter_cons, hmem]
    | true =>
      have hmem : getExt p ∈ E := by simpa using hc
      rw [hc] at h
      simp only [if_true] at h
      cases hr : readFile d p with
      | error e => rw [hr] at h; simp at h
      | ok data =>
        rw [hr] at h
        rw [relPath_of_underDir (hud p (List.mem_cons_self p ps))] at h
        cases hw : walkFiles d dir E ps with
        | error e => rw [hw] at h; simp at h
        | ok rest =>
          rw [hw] at h
          simp at h
          rw [← h]
          rw [ih (fun q hq => hud q (List.mem_cons_of_mem p hq)) hw]
          simp [List.filter_cons, hmem, deriveName,
            diskContent_of_readFile hr]

theorem newFileSystem_characterization {d : Disk} {dir : String}
    {E : List String} {fs : List TFile}
    (h : newFileSystem d dir E = Except.ok fs) :
    fs = (matchedPaths d dir E).map
      (fun p => ⟨deriveName dir p, diskContent d p, getExt p⟩) := by
  unfold newFileSystem at h
  cases hl : d.lookup dir with
  | none => rw [hl] at h; simp at h
  | some n =>
    rw [hl] at h
    exact walkFiles_ok (fun p hp => walkPaths_underDir hp) h

theorem scanDirs_eq (d : Disk) (rel : String) (dirs : List String) :
    scanDirs d rel dirs = Except.ok (firstExisting d rel dirs) := by
  induction dirs with
  | nil => rfl
  | cons dir rest ih =>
    cases hf : isFile d (dir ++ "/" ++ rel) with
    | true => simp [scanDirs, firstExisting, hf, readFile_of_isFile hf]
    | false => simp [scanDirs, firstExisting, hf, ih]

theorem compileFiles_eq (P : String → Except String String) (d : Disk)
    (dirs : List String) (fs : List TFile) :
    compileFiles P d dirs fs =
      exceptMapList (fun f =>
        match P (match firstExisting d (f.name ++ f.ext) dirs with
                 | some c => if c == "" then f.data else c
                 | none => f.data) with
        | Except.error e => Except.error ("parse " ++ f.name ++ ": " ++ e)
        | Except.ok b => Except.ok (f.name, b)) fs := by
  induction fs with
  | nil => rfl
  | cons f rest ih =>
    unfold compileFiles exceptMapList
    rw [scanDirs_eq, ih]
    dsimp only
    cases hP : P (match firstExisting d (f.name ++ f.ext) dirs with
                  | some c => if c == "" then f.data else c
                  | none => f.data) with
    | error e => rfl
    | ok b =>
      dsimp only
      cases hM : exceptMapList (fun f =>
          match P (match firstExisting d (f.name ++ f.ext) dirs with
                   | some c => if c == "" then f.data else c
                   | none => f.data) with
          | Except.error e => Except.error ("parse " ++ f.name ++ ": " ++ e)
          | Except.ok b => Except.ok (f.name, b)) rest with
      | error e => rfl
      | ok ts => rfl

theorem exceptMapList_fst {g : TFile → Except String (String × String)}
    (hg : ∀ f b, g f = Except.ok b → b.1 = f.name) :
    ∀ {fs : List TFile} {ts : List (String × String)},
    exceptMapList g fs = Except.ok ts → ts.map Prod.fst = fs.map TFile.name := by
  intro fs
  induction fs with
  | nil =>
    intro ts h
    unfold exceptMapList at h
    simp at h
    simp [← h]
  | cons f rest ih =>
    intro ts h
    unfold exceptMapList at h
    cases hgf : g f with
    | error e => rw [hgf] at h; simp at h
    | ok b =>
      rw [hgf] at h
      cases hrest : exceptMapList g rest with
      | error e => rw [hrest] at h; simp at h
      | ok bs =>
        rw [hrest] at h
        simp at h
        rw [← h]
        simp [hg f b hgf, ih hrest]

theorem exceptMapList_total {g : α → Except String β}
    (hg : ∀ a, ∃ b, g a = Except.ok b) :
    ∀ as : List α, ∃ bs, exceptMapList g as = Except.ok bs := by
  intro as
  induction as with
  | nil => exact ⟨[], rfl⟩
  | cons a rest ih =>
    rcases hg a with ⟨b, hb⟩
    rcases ih with ⟨bs, hbs⟩
    exact ⟨b :: bs, by simp [exceptMapList, hb, hbs]⟩

theorem Data.get_set_self (d : Data) (k : String) (v : Value) :
    Data.get (Data.set d k v) k = some v := by
  induction d with
  | nil => simp [Data.set, Data.get]
  | cons e rest ih =>
    cases he : (e.1 == k) with
    | true => simp [Data.set, Data.get, he]
    | false => simp [Data.set, Data.get, he, ih]

theorem guard_dev_parseOptions (o : Options) :
    recompileGuard EnvType.dev (parseOptions o) = true := by
  unfold recompileGuard parseOptions
  cases hd : (o.directory == "") with
  | true => simp [hd]; rfl
  | false => simp [hd]; rfl

theorem empty_append_str (s : String) : "" ++ s = s := rfl

theorem Data.get_set_ne (d : Data) (k k0 : String) (v : Value)
    (h : ¬(k0 = k)) : Data.get (Data.set d k v) k0 = Data.get d k0 := by
  induction d with
  | nil =>
    have : (k == k0) = false := by
      simp only [beq_eq_false_iff_ne]
      exact fun hk => h hk.symm
    simp [Data.set, Data.get, this]
  | cons e rest ih =>
    cases he : (e.1 == k) with
    | true =>
      have hk : e.1 = k := by simpa using he
      have h1 : (k == k0) = false := by
        simp only [beq_eq_false_iff_ne]
        exact fun hk2 => h hk2.symm
      have h2 : (e.1 == k0) = false := by rw [hk]; exact h1
      simp [Data.set, Data.get, he, h1, h2]
    | false => simp [Data.set, Data.get, he, ih]

/-! The claim theorems. -/

/-- C1, counterexample to the claim as stated: with primary files home.tmpl
and home.html (both extensions allowed), two files are admitted but their
names both strip to "home", so the compiled set registers the name twice and
holds one effective entry, not one entry per file. -/
theorem C1_counterexample :
    newTemplate parseId diskDup [".tmpl", ".html"] none "templates" [] =
      Except.ok [("home", "A"), ("home", "B")]
    ∧ (matchedPaths diskDup "templates" [".tmpl", ".html"]).length = 2
    ∧ (TemplateSet.names [("home", "A"), ("home", "B")]).length = 1 :=
  ⟨rfl, rfl, by decide⟩

/-- C1, amended: for every successful directory-mode compilation, the names
registered in the compiled set are exactly the derived names (relative path
with the code-computed extension stripped, separators normalized) of the
files under the primary directory admitted by the extension check, in walk
order, and the effective entries are the distinct such names; the inventory
does not depend on the overlay directories, so a file present only in an
overlay never contributes an entry.  When several admitted files derive the
same name they share one effective entry (last registration wins) rather
than one entry each. -/
theorem C1_amended (P : String → Except String String) (d : Disk)
    (dir : String) (E : List String) (others : List String) (ts : TemplateSet)
    (h : newTemplate P d E none dir others = Except.ok ts) :
    ts.map Prod.fst = (matchedPaths d dir E).map (deriveName dir)
    ∧ TemplateSet.names ts =
      ((matchedPaths d dir E).map (deriveName dir)).dedup := by
  unfold newTemplate at h
  cases hfs : newFileSystem d dir E with
  | error e => rw [hfs] at h; simp at h
  | ok fs =>
    rw [hfs] at h
    dsimp only at h
    rw [compileFiles_eq] at h
    have hfst : ts.map Prod.fst = fs.map TFile.name := by
      refine exceptMapList_fst ?_ h
      intro f b hb
      revert hb
      cases P (match firstExisting d (f.name ++ f.ext) others.reverse with
               | some c => if c == "" then f.data else c
               | none => f.data) with
      | error e => intro hb; simp at hb
      | ok c => intro hb; cases hb; rfl
    have hchar := newFileSystem_characterization hfs
    have hnames : ts.map Prod.fst = (matchedPaths d dir E).map (deriveName dir) := by
      rw [hfst, hchar, List.map_map]
      rfl
    exact ⟨hnames, by rw [TemplateSet.names, hnames]⟩

/-- Witness for C1_amended at a concrete successful compilation. -/
theorem C1_amended_witness :
    ([("home", "A")] : TemplateSet).map Prod.fst =
      (matchedPaths diskBasic "templates" [".tmpl", ".html"]).map
        (deriveName "templates")
    ∧ TemplateSet.names ([("home", "A")] : TemplateSet) =
      ((matchedPaths diskBasic "templates" [".tmpl", ".html"]).map
        (deriveName "templates")).dedup :=
  C1_amended parseId diskBasic "templates" [".tmpl", ".html"] []
    [("home", "A")] rfl

/-- C2, counterexample to the claim as stated: the code computes the
extension from the first dot of the full walked path, not of the filename,
so the file templates/v1.0/home.tmpl — a regular file whose filename
extension ".tmpl" is allowed — produces no entry at all (its computed
extension is ".0/home.tmpl"). -/
theorem C2_counterexample :
    newFileSystem diskDotted "templates" [".tmpl"] = Except.ok []
    ∧ isFile diskDotted "templates/v1.0/home.tmpl" = true
    ∧ getExt (lastComponent "templates/v1.0/home.tmpl") = ".tmpl" :=
  ⟨rfl, rfl, rfl⟩

/-- C2, amended: a walked path becomes a template entry exactly when the
substring from the first dot of the full walked path (dots in directory
components included) is in the allowed set, and the entry is named by the
relative path with that substring stripped from its end; the resulting file
list is exactly the admitted walked paths in walk order. -/
theorem C2_amended (d : Disk) (dir : String) (E : List String)
    (fs : List TFile) (h : newFileSystem d dir E = Except.ok fs) :
    fs = (matchedPaths d dir E).map
      (fun p => ⟨deriveName dir p, diskContent d p, getExt p⟩) :=
  newFileSystem_characterization h

/-- Witness for C2_amended at a concrete successful walk. -/
theorem C2_amended_witness :
    ([⟨"home", "A", ".tmpl"⟩] : List TFile) =
      (matchedPaths diskBasic "templates" [".tmpl"]).map
        (fun p => ⟨deriveName "templates" p, diskContent diskBasic p, getExt p⟩) :=
  C2_amended diskBasic "templates" [".tmpl"] [⟨"home", "A", ".tmpl"⟩] rfl

/-- C3, counterexample to the claim as stated: with primary home.tmpl = "A"
and an overlay file that exists on disk but is empty, the compiled content
is the primary's "A", not the overlay's "" — an existing empty overlay file
does not mask the primary (the code falls back whenever the scanned data is
empty, not only when no overlay file exists). -/
theorem C3_counterexample :
    newTemplate parseId diskEmptyOverlay [".tmpl"] none "templates"
      ["appendd"] = Except.ok [("home", "A")]
    ∧ isFile diskEmptyOverlay "appendd/home.tmpl" = true
    ∧ diskContent diskEmptyOverlay "appendd/home.tmpl" = "" :=
  ⟨rfl, rfl, rfl⟩

/-- C3, amended: the compiled content of each primary-enumerated file is the
content of the first overlay directory, scanning from last listed to first
listed, in which a file at the matching relative path exists — except that
when that scanned content is empty (no overlay has the file, or the first
existing overlay file is empty) the primary content captured during the walk
is used; the parse step then runs on that resolved content.  Moreover, with
a parse step that accepts everything, compilation succeeds exactly when the
primary walk succeeds, so a missing overlay directory never causes failure. -/
theorem C3_amended (P : String → Except String String) (d : Disk)
    (E : List String) (dir : String) (others : List String) :
    newTemplate P d E none dir others =
      (match newFileSystem d dir E with
       | Except.error e => Except.error ("new file system: " ++ e)
       | Except.ok fs =>
         exceptMapList (fun f =>
           match P (resolveContent d others f) with
           | Except.error e => Except.error ("parse " ++ f.name ++ ": " ++ e)
           | Except.ok b => Except.ok (f.name, b)) fs)
    ∧ ((newTemplate parseId d E none dir others).isOk =
        (newFileSystem d dir E).isOk) := by
  constructor
  · unfold newTemplate
    cases hfs : newFileSystem d dir E with
    | error e => rfl
    | ok fs =>
      dsimp only
      rw [compileFiles_eq]
      rfl
  · unfold newTemplate
    cases hfs : newFileSystem d dir E with
    | error e => rfl
    | ok fs =>
      dsimp only
      rw [compileFiles_eq]
      rcases @exceptMapList_total TFile (String × String)
        (fun f =>
          match parseId (match firstExisting d (f.name ++ f.ext) others.reverse with
                         | some c => if c == "" then f.data else c
                         | none => f.data) with
          | Except.error e => Except.error ("parse " ++ f.name ++ ": " ++ e)
          | Except.ok b => Except.ok (f.name, b))
        (fun f => ⟨(f.name,
          (match firstExisting d (f.name ++ f.ext) others.reverse with
           | some c => if c == "" then f.data else c
           | none => f.data)), rfl⟩) fs with ⟨bs, hbs⟩
      rw [hbs]
      rfl

/-- C4, counterexample to the claim as stated: with a pre-built FileSystem
supplied and the environment "development", the recompile guard still fires
(parseOptions always defaults Directory to "templates"), and with the
overlay directory configured alongside the supplied FileSystem — the
repository's own test configuration — the set used for the request is a
fresh recompilation that differs from the one compiled at setup. -/
theorem C4_counterexample :
    recompileGuard EnvType.dev (parseOptions ⟨some fsSupplied, "", [], [], ""⟩) =
      true
    ∧ handleRequest parseId EnvType.dev
        (parseOptions ⟨some fsSupplied, "", ["appendd"], [], ""⟩)
        [("home", "A")] diskOverlayB =
      (RequestOutcome.proceed [("home", "B")], [("home", "A")])
    ∧ ¬(([("home", "B")] : TemplateSet) = [("home", "A")]) :=
  ⟨rfl, rfl, by decide⟩

/-- C4, amended: the setup-compiled set is reused with no per-request
recompilation exactly when the environment is not "development"; in the
"development" environment the recompile guard holds for every parsed
configuration (the directory default makes the directory condition always
true), so every request recompiles, even when a pre-built FileSystem was
supplied. -/
theorem C4_amended (P : String → Except String String) (env : EnvType)
    (o : Options) (shared : TemplateSet) (d : Disk) :
    (¬(env = EnvType.dev) →
      handleRequest P env (parseOptions o) shared d =
        (RequestOutcome.proceed shared, shared))
    ∧ recompileGuard EnvType.dev (parseOptions o) = true := by
  refine ⟨?_, guard_dev_parseOptions o⟩
  intro hne
  have hguard : recompileGuard env (parseOptions o) = false := by
    unfold recompileGuard
    have hb : (env == EnvType.dev) = false := by
      cases env with
      | dev => exact absurd rfl hne
      | prod => rfl
      | test => rfl
    rw [hb]
    rfl
  simp [handleRequest, hguard]

/-- Witness for C4_amended in a non-development environment. -/
theorem C4_amended_witness :
    handleRequest parseId EnvType.prod (parseOptions ⟨none, "", [], [], ""⟩)
      [] diskNone = (RequestOutcome.proceed [], [])
    ∧ recompileGuard EnvType.dev (parseOptions ⟨none, "", [], [], ""⟩) = true := by
  have h := C4_amended parseId EnvType.prod ⟨none, "", [], [], ""⟩ [] diskNone
  exact ⟨h.1 (by decide), h.2⟩

/-- C5: in the "development" environment with a directory-based
configuration, when the per-request recompilation fails the request is
answered with status 500 carrying the error detail, the handler returns
without mapping a template for rendering, and the shared setup-compiled set
is left unchanged for subsequent requests. -/
theorem C5_recompile_failure (P : String → Except String String) (o : Options)
    (shared : TemplateSet) (d : Disk) (e : String)
    (hfs : o.fileSystem = none)
    (h : newTemplate P d (parseOptions o).extensions none
        (parseOptions o).directory (parseOptions o).appendDirectories =
      Except.error e) :
    handleRequest P EnvType.dev (parseOptions o) shared d =
      (RequestOutcome.errorResponse 500 ("template: " ++ e ++ "\n"), shared) := by
  have hguard := guard_dev_parseOptions o
  have hfs2 : (parseOptions o).fileSystem = none := by
    simp [parseOptions, hfs]
  simp [handleRequest, hguard, hfs2, h]

/-- Witness for C5_recompile_failure: the primary directory is missing at
request time, so the request gets a 500 with the walk error and the shared
set is untouched. -/
theorem C5_recompile_failure_witness :
    handleRequest parseId EnvType.dev (parseOptions ⟨none, "", [], [], ""⟩)
      [("home", "A")] diskNone =
      (RequestOutcome.errorResponse 500
        ("template: " ++
          "new file system: walk templates: open templates: no such file or directory"
          ++ "\n"),
       [("home", "A")]) :=
  C5_recompile_failure parseId ⟨none, "", [], [], ""⟩ [("home", "A")] diskNone
    "new file system: walk templates: open templates: no such file or directory"
    rfl rfl

/-- C6: the factory performs its single setup compilation unconditionally;
if that compilation fails the factory panics with the error and returns no
handler, and if it succeeds the returned handler carries exactly the
compiled set. -/
theorem C6_setup (P : String → Except String String) (d : Disk) (o : Options) :
    (∀ e, newTemplate P d (parseOptions o).extensions
        (parseOptions o).fileSystem (parseOptions o).directory
        (parseOptions o).appendDirectories = Except.error e →
      Templater P d o =
        SetupResult.panicked ("template: new template: " ++ e))
    ∧ (∀ ts, newTemplate P d (parseOptions o).extensions
        (parseOptions o).fileSystem (parseOptions o).directory
        (parseOptions o).appendDirectories = Except.ok ts →
      Templater P d o = SetupResult.handler (parseOptions o) ts) := by
  constructor
  · intro e he
    simp [Templater, he]
  · intro ts hts
    simp [Templater, hts]

/-- Witness for C6_setup: setup panics when the primary directory is missing
and returns a handler holding the compiled set when compilation succeeds. -/
theorem C6_setup_witness :
    Templater parseId diskNone ⟨none, "", [], [], ""⟩ =
      SetupResult.panicked ("template: new template: " ++
        "new file system: walk templates: open templates: no such file or directory")
    ∧ Templater parseId diskBasic ⟨none, "", [], [], ""⟩ =
      SetupResult.handler (parseOptions ⟨none, "", [], [], ""⟩)
        [("home", "A")] :=
  ⟨(C6_setup parseId diskNone ⟨none, "", [], [], ""⟩).1
      "new file system: walk templates: open templates: no such file or directory"
      rfl,
   (C6_setup parseId diskBasic ⟨none, "", [], [], ""⟩).2 [("home", "A")] rfl⟩

/-- C7: when template execution fails, the whole render result is the
error path: the response is exactly the http.Error response — status 500
with the error text as the body in "development" and the generic status
text otherwise, nothing written before it — the buffer is reset and
returned to the pool, and the error is logged. -/
theorem C7_render_failure (env : EnvType)
    (exec : String → Data → Except String String) (ct : String)
    (pool : List String) (data0 : Data) (status : Nat) (name e : String)
    (h : exec name (Data.set data0 "RenderDuration" Value.durationThunk) =
      Except.error e) :
    HTML env exec ct pool data0 status name =
      ⟨httpError (if env == EnvType.dev then e else statusText500) 500,
       "" :: pool.drop 1,
       Data.set data0 "RenderDuration" Value.durationThunk, [e]⟩ := by
  simp [HTML, h, responseServerError]

/-- Witness for C7_render_failure: rendering an unknown template name in
development mode. -/
theorem C7_render_failure_witness :
    HTML EnvType.dev execHelloSet "text/html" [] ([] : Data) 200 "nope" =
      ⟨httpError
        (if EnvType.dev == EnvType.dev then "html/template: nope is undefined"
         else statusText500) 500,
       [""],
       Data.set ([] : Data) "RenderDuration" Value.durationThunk,
       ["html/template: nope is undefined"]⟩ :=
  C7_render_failure EnvType.dev execHelloSet "text/html" [] ([] : Data) 200
    "nope" "html/template: nope is undefined" rfl

/-- C8: when the named template executes successfully (and the pool holds
only reset buffers, as the pool discipline guarantees), the response carries
the configured content type with the utf-8 charset suffix, the
caller-supplied status code, and exactly the executed output as its body. -/
theorem C8_render_success (env : EnvType)
    (exec : String → Data → Except String String) (ct : String)
    (pool : List String) (data0 : Data) (status : Nat) (name out : String)
    (hpool : ∀ b ∈ pool, b = "")
    (h : exec name (Data.set data0 "RenderDuration" Value.durationThunk) =
      Except.ok out) :
    (HTML env exec ct pool data0 status name).response =
      ⟨some (ct ++ "; charset=utf-8"), some status, out⟩ := by
  have hbuf : pool.headD "" = "" := by
    cases pool with
    | nil => rfl
    | cons b rest => exact hpool b (List.mem_cons_self b rest)
  unfold HTML
  rw [h]
  dsimp only
  rw [hbuf, empty_append_str]

/-- Witness for C8_render_success: the Hello-Flamego example, rendering the
template body helloTemplateBody with Name = "Flamego" under the default
content type. -/
theorem C8_render_success_witness :
    (HTML EnvType.prod execHelloSet "text/html" []
      [("Name", Value.str "Flamego")] 200 "home").response =
      ⟨some ("text/html" ++ "; charset=utf-8"), some 200, "Hello, Flamego!"⟩ :=
  C8_render_success EnvType.prod execHelloSet "text/html" []
    [("Name", Value.str "Flamego")] 200 "home" "Hello, Flamego!"
    (by intro b hb; cases hb) rfl

/-- C9: on every render — success or failure — the scratch buffer is reset
to empty and returned to the pool before the call completes, so when every
pooled buffer starts empty, every pooled buffer is still empty afterwards
and a later render can never draw a buffer with leftover bytes. -/
theorem C9_pool_discipline (env : EnvType)
    (exec : String → Data → Except String String) (ct : String)
    (pool : List String) (data0 : Data) (status : Nat) (name : String)
    (hpool : ∀ b ∈ pool, b = "") :
    (HTML env exec ct pool data0 status name).pool = "" :: pool.drop 1
    ∧ ∀ b ∈ (HTML env exec ct pool data0 status name).pool, b = "" := by
  have hp : (HTML env exec ct pool data0 status name).pool =
      "" :: pool.drop 1 := by
    unfold HTML
    cases exec name (Data.set data0 "RenderDuration" Value.durationThunk) with
    | error e => rfl
    | ok out => rfl
  refine ⟨hp, ?_⟩
  rw [hp]
  intro b hb
  rcases List.mem_cons.mp hb with hb1 | hb2
  · exact hb1
  · exact hpool b (List.mem_of_mem_drop hb2)

/-- Witness for C9_pool_discipline on a concrete render with a pooled
buffer. -/
theorem C9_pool_discipline_witness :
    (HTML EnvType.prod execHelloSet "text/html" [""]
      [("Name", Value.str "Flamego")] 200 "home").pool =
      "" :: ([""] : List String).drop 1
    ∧ ∀ b ∈ (HTML EnvType.prod execHelloSet "text/html" [""]
        [("Name", Value.str "Flamego")] 200 "home").pool, b = "" :=
  C9_pool_discipline EnvType.prod execHelloSet "text/html" [""]
    [("Name", Value.str "Flamego")] 200 "home"
    (by intro b hb; simpa using List.eq_of_mem_singleton hb)

/-- C10: every render installs the render-duration closure under the
"RenderDuration" key of the data map before execution, overwriting any
previous value under that key and leaving every other key unchanged; the
render outcome depends on the execution function only through its value at
that already-updated map. -/
theorem C10_render_duration (env : EnvType)
    (exec : String → Data → Except String String) (ct : String)
    (pool : List String) (data0 : Data) (status : Nat) (name : String) :
    (HTML env exec ct pool data0 status name).data =
      Data.set data0 "RenderDuration" Value.durationThunk
    ∧ Data.get (HTML env exec ct pool data0 status name).data
        "RenderDuration" = some Value.durationThunk
    ∧ (∀ k, ¬(k = "RenderDuration") →
        Data.get (HTML env exec ct pool data0 status name).data k =
          Data.get data0 k)
    ∧ (∀ exec2 : String → Data → Except String String,
        exec name (Data.set data0 "RenderDuration" Value.durationThunk) =
          exec2 name (Data.set data0 "RenderDuration" Value.durationThunk) →
        HTML env exec ct pool data0 status name =
          HTML env exec2 ct pool data0 status name) := by
  have hd : (HTML env exec ct pool data0 status name).data =
      Data.set data0 "RenderDuration" Value.durationThunk := by
    unfold HTML
    cases exec name (Data.set data0 "RenderDuration" Value.durationThunk) with
    | error e => rfl
    | ok out => rfl
  refine ⟨hd, ?_, ?_, ?_⟩
  · rw [hd]
    exact Data.get_set_self data0 "RenderDuration" Value.durationThunk
  · intro k hk
    rw [hd]
    exact Data.get_set_ne data0 "RenderDuration" k Value.durationThunk hk
  · intro exec2 he
    unfold HTML
    rw [he]

/-- Witness for C10_render_duration: the handler-stored Name key survives
the render untouched while RenderDuration is installed. -/
theorem C10_render_duration_witness :
    Data.get (HTML EnvType.prod execHelloSet "text/html" []
      [("Name", Value.str "Flamego")] 200 "home").data "Name" =
      some (Value.str "Flamego")
    ∧ (HTML EnvType.prod execHelloSet "text/html" []
        [("Name", Value.str "Flamego")] 200 "home").data =
      Data.set [("Name", Value.str "Flamego")] "RenderDuration"
        Value.durationThunk := by
  have h := C10_render_duration EnvType.prod execHelloSet "text/html" []
    [("Name", Value.str "Flamego")] 200 "home"
  refine ⟨?_, h.1⟩
  rw [h.2.2.1 "Name" (by decide)]
  rfl

end Flamego
